import Mathlib

/-!
Shallow embedding of the Lead-Machine / RepoRadar approval-workflow service
(`src/app.py`, `src/storage.py`, `src/email_gen.py`, `src/schema.py`,
`src/apollo_client.py`).

Modelling conventions:
* SQLite tables become association lists; a `UPDATE ... WHERE id = ?` becomes a
  `List.map` guarded on the id, a `DELETE ... WHERE domain = ?` becomes a
  `List.filter`, an `INSERT OR REPLACE` prepends after filtering the key out.
* `datetime` values are `Int` seconds; the cache-expiry window
  (`timedelta(days=config.CACHE_EXPIRY_DAYS)`) is an `Int` parameter.
* The JSON round trip `json.loads (json.dumps contacts)` is modelled as the
  identity on the stored contact list.
* Python exceptions are an explicit `Except PyError` channel; Python truthiness
  of an optional string (`if slack_ts:`, `if new_contact_id:`) is `strTruthy`.
* External collaborators (Apollo CRM, Slack) are modelled by their observable
  effects: call counters plus injectable outcomes (`CrmBehavior`).
-/

namespace Prospector

/-- Python exception kinds relevant to the modelled code paths. -/
inductive PyError where
  | valueError    -- e.g. int("") in verify_slack_signature
  | apiError      -- requests / raise_for_status failures from the Apollo client
  | integrityError -- sqlite PRIMARY KEY violation on INSERT
  deriving Repr, DecidableEq

/-- Python truthiness of an optional string: `None` and `""` are falsy. -/
def strTruthy : Option String → Bool
  | none => false
  | some s => s ≠ ""

/-- A row of the `approval_queue` table (schema.ApprovalRequest plus the
`updated_at` column kept by `storage.py`). -/
structure ApprovalRequest where
  id : String
  company : String
  domain : String
  signal_summary : String
  contact_id : String
  contact_name : String
  contact_title : Option String := none
  contact_email : Option String := none
  personalized_subject : String
  personalized_email : String
  i18n_signals : String
  slack_message_ts : Option String := none
  status : String := "pending"
  created_at : Option String := none
  updated_at : Option String := none
  deriving Repr, DecidableEq

/-- The `approval_queue` table: rows keyed by `id` (PRIMARY KEY). -/
def Queue := List ApprovalRequest

instance : DecidableEq Queue := inferInstanceAs (DecidableEq (List ApprovalRequest))

/-- `SELECT * FROM approval_queue WHERE id = ?` (storage.get_approval_request). -/
def get_approval_request (queue : List ApprovalRequest) (request_id : String) :
    Option ApprovalRequest :=
  queue.find? (fun r => r.id = request_id)

/-- Status of the row with the given id, if present. -/
def statusOf (queue : List ApprovalRequest) (request_id : String) : Option String :=
  (get_approval_request queue request_id).map (fun r => r.status)

/-- storage.update_approval_status: a bare SQL UPDATE.  When no row matches the
id it updates 0 rows and returns successfully; there is no error path, so the
result is a plain queue (the `Except` channel of callers never carries a
NotFound from here). `if slack_ts:` is Python truthiness. -/
def update_approval_status (queue : List ApprovalRequest) (request_id status : String)
    (slack_ts : Option String) (now : String) : List ApprovalRequest :=
  queue.map (fun r =>
    if r.id = request_id then
      if strTruthy slack_ts then
        { r with status := status, slack_message_ts := slack_ts, updated_at := some now }
      else
        { r with status := status, updated_at := some now }
    else r)

/-- storage.save_approval_request: `INSERT INTO approval_queue ...`; a plain
INSERT raises sqlite IntegrityError when the PRIMARY KEY already exists. -/
def save_approval_request (queue : List ApprovalRequest) (request : ApprovalRequest)
    (now : String) : Except PyError (List ApprovalRequest) :=
  if (queue.find? (fun r => r.id = request.id)).isSome then
    .error .integrityError
  else
    .ok (queue ++ [{ request with created_at := some now }])

/-- storage.update_approval_email: UPDATE of the draft fields only. -/
def update_approval_email (queue : List ApprovalRequest) (request_id subject body now : String) :
    List ApprovalRequest :=
  queue.map (fun r =>
    if r.id = request_id then
      { r with personalized_subject := subject, personalized_email := body,
               updated_at := some now }
    else r)

/-- A row of the `company_cache` table: contacts (JSON round trip modelled as
identity on the list) plus the fetch timestamp. -/
structure CacheEntry where
  contacts_json : List String   -- opaque serialized contact dicts
  fetched_at : Int
  deriving Repr, DecidableEq

/-- The `company_cache` table keyed by `domain` (PRIMARY KEY). -/
def Cache := List (String × CacheEntry)

/-- `SELECT ... WHERE domain = ?` on the cache table. -/
def cacheLookup (cache : List (String × CacheEntry)) (domain : String) : Option CacheEntry :=
  (cache.find? (fun p => p.1 = domain)).map (fun p => p.2)

/-- storage.get_cached_contacts: returns the cached contacts if present and
unexpired; an entry with `now - fetched_at > expiry` is deleted and reported
absent.  Result: (returned value, cache table after the call). -/
def get_cached_contacts (cache : List (String × CacheEntry)) (domain : String)
    (now expiry : Int) : Option (List String) × List (String × CacheEntry) :=
  match cacheLookup cache domain with
  | none => (none, cache)
  | some entry =>
    if now - entry.fetched_at > expiry then
      (none, cache.filter (fun p => p.1 ≠ domain))
    else
      (some entry.contacts_json, cache)

/-- storage.cache_contacts: `INSERT OR REPLACE INTO company_cache`, with
`fetched_at` set to the current time. -/
def cache_contacts (cache : List (String × CacheEntry)) (domain : String)
    (contacts : List String) (now : Int) : List (String × CacheEntry) :=
  (domain, ⟨contacts, now⟩) :: cache.filter (fun p => p.1 ≠ domain)

/-! ## Python string primitives

Lean's own `String.trim`/`String.splitOn`/`String.startsWith` are implemented
through `Substring` byte-position recursion that the kernel cannot unfold, so
the Python string operations used by the source are re-implemented here over
`List Char` with structural recursion; each is a faithful model of the
corresponding Python `str` method. -/

/-- Python `str.strip()` (no argument): drop whitespace from both ends. -/
def pyStripList (l : List Char) : List Char :=
  ((l.dropWhile Char.isWhitespace).reverse.dropWhile Char.isWhitespace).reverse

/-- Python `s.split(sep)` for a one-character separator `sep`: accumulates the
current chunk (reversed) and emits it at each separator; always returns at
least one chunk (`"".split(sep) == [""]`). -/
def splitCharAux (sep : Char) : List Char → List Char → List (List Char)
  | [], acc => [acc.reverse]
  | c :: rest, acc =>
    if c = sep then acc.reverse :: splitCharAux sep rest []
    else splitCharAux sep rest (c :: acc)

/-- Python `s.split(sep)` for a one-character separator. -/
def splitChar (sep : Char) (l : List Char) : List (List Char) :=
  splitCharAux sep l []

/-- Python `s.startswith(p)`. -/
def listStartsWith : List Char → List Char → Bool
  | _, [] => true
  | [], _ :: _ => false
  | c :: cs, p :: ps => c = p && listStartsWith cs ps

/-- Python `s.replace(pat, rep)` (all non-overlapping occurrences, left to
right), driven by a fuel counter to keep the recursion structural; the fuel
`s.length + 1` always suffices because each step consumes at least one
character of `s`. -/
def listReplaceAux (pat rep : List Char) : Nat → List Char → List Char
  | 0, s => s
  | _ + 1, [] => []
  | fuel + 1, c :: cs =>
    if listStartsWith (c :: cs) pat && !pat.isEmpty then
      rep ++ listReplaceAux pat rep fuel ((c :: cs).drop pat.length)
    else c :: listReplaceAux pat rep fuel cs

/-- Python `s.replace(pat, rep)`. -/
def listReplace (s pat rep : List Char) : List Char :=
  listReplaceAux pat rep (s.length + 1) s

/-- Python `sep.join(parts)` for `sep = "\n"`. -/
def joinNl : List (List Char) → List Char
  | [] => []
  | [l] => l
  | l :: ls => l ++ '\n' :: joinNl ls

/-! ## Slack signature verification (app.verify_slack_signature) -/

/-- Digit chunks of a Python integer literal body: splitting on `_` must give
only nonempty all-digit chunks (`int("1_2")` is fine, `int("_1")`, `int("1_")`,
`int("1__2")`, `int("")` raise). -/
def pyDigits? (l : List Char) : Option Nat :=
  let chunks := splitChar '_' l
  if chunks.all (fun c => !c.isEmpty && c.all Char.isDigit) then
    some ((l.filter (fun c => c ≠ '_')).foldl (fun a c => a * 10 + (c.toNat - 48)) 0)
  else none

/-- Python `int(s)` for a string argument: strip surrounding whitespace, allow
one optional sign, then underscore-grouped decimal digits; `none` models the
ValueError raised on anything else. -/
def pyInt? (s : String) : Option Int :=
  match pyStripList s.toList with
  | '+' :: rest => (pyDigits? rest).map Int.ofNat
  | '-' :: rest => (pyDigits? rest).map (fun n => -(Int.ofNat n))
  | l => (pyDigits? l).map Int.ofNat

/-- An inbound HTTP request to the `/slack/interactions` endpoint, reduced to
the parts `verify_slack_signature` reads: the two Slack headers (absent header
modelled as `none`; `headers.get(..., "")` supplies `""`) and the raw body. -/
structure SlackRequest where
  timestampHeader : Option String
  signatureHeader : Option String
  body : String
  deriving Repr, DecidableEq

/-- app.verify_slack_signature.  The HMAC-SHA256 hex digest is an opaque
function parameter `hmacHex secret message` (its internals are irrelevant to
every property proved here).  `int(timestamp)` can raise ValueError — that is
the `.error` branch, raised before any signature computation; otherwise the
result is the boolean the Python function returns. -/
def verify_slack_signature (hmacHex : String → String → String) (secret : String)
    (now : Int) (r : SlackRequest) : Except PyError Bool :=
  let timestamp := r.timestampHeader.getD ""
  let signature := r.signatureHeader.getD ""
  match pyInt? timestamp with
  | none => .error .valueError
  | some ts =>
    if (now - ts).natAbs > 60 * 5 then .ok false
    else
      let sig_basestring := "v0:" ++ timestamp ++ ":" ++ r.body
      let expected_signature := "v0=" ++ hmacHex secret sig_basestring
      .ok (expected_signature = signature)

/-! ## AI email response parsing (email_gen._parse_email_response) -/

/-- Loop state of the parsing loop in `_parse_email_response`:
(subject, in_body, body_lines with lines accumulated in reverse), each line a
`List Char`. -/
def parseStep (st : List Char × Bool × List (List Char)) (line : List Char) :
    List Char × Bool × List (List Char) :=
  if listStartsWith line "SUBJECT:".toList then
    (pyStripList (listReplace line "SUBJECT:".toList []), st.2.1, st.2.2)
  else if listStartsWith line "BODY:".toList then
    (st.1, true, st.2.2)
  else if st.2.1 then
    (st.1, st.2.1, line :: st.2.2)
  else st

/-- email_gen._parse_email_response: extracts a SUBJECT line and the lines after
a BODY marker; when either is missing/empty (Python falsiness of the empty
string), falls back to the first line of the stripped response truncated to 50
characters (subject) and the raw response (body). -/
def parse_email_response (response : String) : String × String :=
  let lines := splitChar '\n' (pyStripList response.toList)
  let st := lines.foldl parseStep ([], false, [])
  let subject := st.1
  let body := pyStripList (joinNl st.2.2.reverse)
  let subject := if subject.isEmpty && !lines.isEmpty then
      (lines.headD []).take 50
    else subject
  let body := if body.isEmpty then response.toList else body
  (String.mk subject, String.mk body)

/-! ## Interaction handling (app.handle_slack_interactions and helpers) -/

/-- Observable calls made to external collaborators during one handler run. -/
structure Effects where
  crmCreates : Nat := 0     -- apollo_client.create_contact calls
  crmEnrolls : Nat := 0     -- apollo_client.add_to_sequence calls
  slackUpdates : Nat := 0   -- slack_bot.update_card_* calls
  deriving Repr, DecidableEq

/-- Injectable outcomes of the Apollo CRM calls for one handler run:
`createResult` is what `create_contact` does (`.error` = raises;
`.ok v` = returns a response whose `contact.id` extraction yields `v`, with
`None`/`""` both possible), `enrollResult` is what `add_to_sequence` does. -/
structure CrmBehavior where
  createResult : Except PyError (Option String)
  enrollResult : Except PyError Unit
  deriving Repr

/-- HTTP responses produced by the interaction endpoint, by status code. -/
inductive HResponse where
  | ok200 (status : String)     -- jsonify({"status": ...}), 200
  | badRequest                  -- 400 unknown action
  | unauthorized                -- 401 invalid signature
  | notFound                    -- 404 request not found
  | notImplemented (status : String) -- 501 edit/regenerate stubs
  | serverError                 -- 500 (caught or propagated exception)
  deriving Repr, DecidableEq

/-- app.handle_approve: create the CRM contact, enroll it when a truthy new
contact id came back, then mark the row approved and update the Slack card.
Any exception from a CRM call lands in the `except` block (500) *before* the
status update; the status update and Slack update only run when both CRM calls
returned. -/
def handle_approve (crm : CrmBehavior) (queue : List ApprovalRequest)
    (request : ApprovalRequest) (now : String) :
    List ApprovalRequest × Effects × HResponse :=
  match crm.createResult with
  | .error _ => (queue, { crmCreates := 1 }, .serverError)
  | .ok new_contact_id =>
    if strTruthy new_contact_id then
      match crm.enrollResult with
      | .error _ => (queue, { crmCreates := 1, crmEnrolls := 1 }, .serverError)
      | .ok _ =>
        (update_approval_status queue request.id "approved" none now,
         { crmCreates := 1, crmEnrolls := 1, slackUpdates := 1 },
         .ok200 "approved")
    else
      (update_approval_status queue request.id "approved" none now,
       { crmCreates := 1, slackUpdates := 1 },
       .ok200 "approved")

/-- app.handle_skip: unconditionally mark the row skipped and update the card;
no CRM call on this path. -/
def handle_skip (queue : List ApprovalRequest) (request : ApprovalRequest)
    (now : String) : List ApprovalRequest × Effects × HResponse :=
  (update_approval_status queue request.id "skipped" none now,
   { slackUpdates := 1 },
   .ok200 "skipped")

/-- The parsed Slack interaction payload fields the dispatcher reads
(`payload["actions"][0]`, channel and message ts). -/
structure InteractionPayload where
  action_id : Option String
  value : Option String         -- the target request id
  deriving Repr, DecidableEq

/-- app.handle_slack_interactions: verify the Slack signature (a ValueError
from the timestamp conversion propagates out of the route — Flask answers 500,
not the 401 branch), look up the request, and dispatch on the action id.
Returns the queue after the call, the external-call effects and the response. -/
def handle_slack_interactions (hmacHex : String → String → String) (secret : String)
    (now : Int) (crm : CrmBehavior) (queue : List ApprovalRequest)
    (r : SlackRequest) (payload : InteractionPayload) (nowStr : String) :
    List ApprovalRequest × Effects × HResponse :=
  match verify_slack_signature hmacHex secret now r with
  | .error _ => (queue, {}, .serverError)
  | .ok false => (queue, {}, .unauthorized)
  | .ok true =>
    match get_approval_request queue (payload.value.getD "") with
    | none => (queue, {}, .notFound)
    | some approval_request =>
      if payload.action_id = some "approve_lead" then
        handle_approve crm queue approval_request nowStr
      else if payload.action_id = some "skip_lead" then
        handle_skip queue approval_request nowStr
      else if payload.action_id = some "edit_lead" then
        (queue, {}, .notImplemented "edit_not_implemented")
      else if payload.action_id = some "regenerate_lead" then
        (queue, {}, .notImplemented "regenerate_not_implemented")
      else (queue, {}, .badRequest)

/-! ## Webhook handling (app.handle_reporadar_webhook, steps 4-6) -/

/-- The record-creating tail of app.handle_reporadar_webhook: the
ApprovalRequest is constructed *without* a status argument, so it carries the
schema default `"pending"`; it is saved, then `update_approval_status(id,
"pending", slack_ts)` attaches the Slack correlation token.  The earlier
skip branches (no contacts / no email) and validation errors touch no queue
state and are the `none` argument case handled by callers. -/
def webhook_fresh (request : ApprovalRequest) : ApprovalRequest :=
  { request with slack_message_ts := none, status := "pending" }

/-- Steps 5-6 of app.handle_reporadar_webhook: save the fresh record, then
attach the Slack correlation token via `update_approval_status`. -/
def webhook_create_record (queue : List ApprovalRequest) (request : ApprovalRequest)
    (slack_ts : String) (now : String) :
    List ApprovalRequest × HResponse :=
  match save_approval_request queue (webhook_fresh request) now with
  | .error _ => (queue, .serverError)
  | .ok q1 =>
    (update_approval_status q1 (webhook_fresh request).id "pending" (some slack_ts) now,
     .ok200 "pending_approval")

/-! ## Whole-program steps (every code path that writes the queue) -/

/-- One externally triggered operation of the service that can write the
`approval_queue` table.  `webhook` covers `handle_reporadar_webhook` (the only
INSERT site), `interaction` covers `handle_slack_interactions` and everything
it dispatches to, `editEmail` covers `storage.update_approval_email` (the only
other UPDATE, used by the regenerate design path). -/
inductive Op where
  | webhook (request : ApprovalRequest) (slack_ts : String) (now : String)
  | interaction (hmacHex : String → String → String) (secret : String) (now : Int)
      (crm : CrmBehavior) (r : SlackRequest) (payload : InteractionPayload)
      (nowStr : String)
  | editEmail (request_id subject body now : String)

/-- Effect of one operation on the approval queue. -/
def Op.step (queue : List ApprovalRequest) : Op → List ApprovalRequest
  | .webhook request slack_ts now => (webhook_create_record queue request slack_ts now).1
  | .interaction hmacHex secret now crm r payload nowStr =>
      (handle_slack_interactions hmacHex secret now crm queue r payload nowStr).1
  | .editEmail request_id subject body now =>
      update_approval_email queue request_id subject body now

/-- Queue obtained by running a list of operations from a starting queue. -/
def runOps (queue : List ApprovalRequest) : List Op → List ApprovalRequest
  | [] => queue
  | op :: ops => runOps (Op.step queue op) ops

/-- The statuses the program actually writes: `"pending"` (schema default and
webhook publish), `"approved"` (handle_approve), `"skipped"` (handle_skip). -/
def goodStatus (s : String) : Prop :=
  s = "pending" ∨ s = "approved" ∨ s = "skipped"

/-! ## Concrete fixtures for witnesses and counterexamples -/

/-- A stored approval request already in the terminal status `"approved"`. -/
def rowApproved : ApprovalRequest :=
  { id := "r1", company := "Acme", domain := "acme.com",
    signal_summary := "Added fr.json", contact_id := "c1",
    contact_name := "Ada Lovelace", contact_title := some "CTO",
    contact_email := some "ada@acme.com", personalized_subject := "subj",
    personalized_email := "body", i18n_signals := "sig",
    slack_message_ts := some "111.222", status := "approved" }

/-- A stored approval request in the initial status `"pending"`. -/
def rowPending : ApprovalRequest := { rowApproved with status := "pending" }

/-- A stand-in HMAC-SHA256 hex-digest function for concrete runs. -/
def hmac0 : String → String → String := fun _ _ => "d1"

/-- CRM behaviour where both Apollo calls succeed and a contact id comes back. -/
def crmOk : CrmBehavior := ⟨.ok (some "cid"), .ok ()⟩

/-- CRM behaviour where contact creation succeeds but sequence enrollment
raises (requests/raise_for_status failure in add_to_sequence). -/
def crmEnrollFail : CrmBehavior := ⟨.ok (some "cid"), .error .apiError⟩

/-- An interaction request passing signature verification under `hmac0` with
timestamp "0" evaluated at `now = 0`. -/
def reqVerified : SlackRequest :=
  ⟨some "0", some ("v0=" ++ hmac0 "sec" ("v0:0:payload=x")), "payload=x"⟩

/-- Parsed payload: the Skip button for request `"r1"`. -/
def payloadSkip : InteractionPayload := ⟨some "skip_lead", some "r1"⟩

/-- Parsed payload: the Approve button for request `"r1"`. -/
def payloadApprove : InteractionPayload := ⟨some "approve_lead", some "r1"⟩

/-- The stored row produced by delivering `rowPending` through one webhook
call with correlation token "ts1" at time "t0". -/
def rowPublished : ApprovalRequest :=
  { rowPending with
    created_at := some "t0", slack_message_ts := some "ts1",
    updated_at := some "t0" }

/-! ## Helper lemmas -/

/-- A row found by `get_approval_request` carries the id it was looked up by. -/
theorem get_approval_request_id (queue : List ApprovalRequest) (rid : String)
    (req : ApprovalRequest) (h : get_approval_request queue rid = some req) :
    req.id = rid := by
  have := List.find?_some h
  simpa using this

/-- `update_approval_status` leaves a row's id unchanged, so looking up the
updated id after an UPDATE on a present id finds the new status. -/
theorem statusOf_update_self (queue : List ApprovalRequest) (rid status : String)
    (slack_ts : Option String) (now : String)
    (hfound : (get_approval_request queue rid).isSome) :
    statusOf (update_approval_status queue rid status slack_ts now) rid
      = some status := by
  induction queue with
  | nil => simp [get_approval_request] at hfound
  | cons a l ih =>
    by_cases ha : a.id = rid
    · cases hts : strTruthy slack_ts <;>
        simp [statusOf, get_approval_request, update_approval_status,
          List.find?, ha, hts]
    · have hf : (get_approval_request l rid).isSome := by
        simpa [get_approval_request, List.find?, ha] using hfound
      have hrec := ih hf
      simpa [statusOf, get_approval_request, update_approval_status,
        List.find?, ha] using hrec

/-- Statuses present after an UPDATE: the written status or one already in the
queue. -/
theorem status_mem_update (queue : List ApprovalRequest) (rid s : String)
    (ts : Option String) (now : String) (x : ApprovalRequest)
    (h : x ∈ update_approval_status queue rid s ts now) :
    x.status = s ∨ ∃ r ∈ queue, x.status = r.status := by
  unfold update_approval_status at h
  obtain ⟨r, hr, hf⟩ := List.mem_map.mp h
  subst hf
  by_cases hid : r.id = rid
  · cases hts : strTruthy ts <;> simp [hid, hts]
  · exact Or.inr ⟨r, hr, by simp [hid]⟩

/-- The queue produced by a successful INSERT is the old queue with the fresh
row (creation timestamp set) appended. -/
theorem save_ok_eq (queue : List ApprovalRequest) (request : ApprovalRequest)
    (now : String) (q1 : List ApprovalRequest)
    (h : save_approval_request queue request now = .ok q1) :
    q1 = queue ++ [{ request with created_at := some now }] := by
  unfold save_approval_request at h
  by_cases hdup : (queue.find? (fun r => r.id = request.id)).isSome
  · rw [if_pos hdup] at h; cases h
  · rw [if_neg hdup] at h; cases h; rfl

/-- Statuses present after the webhook record-creation tail: `"pending"` (for
the new row or the publish UPDATE) or one already in the queue. -/
theorem status_mem_webhook_create (queue : List ApprovalRequest)
    (request : ApprovalRequest) (slack_ts now : String) (x : ApprovalRequest)
    (hx : x ∈ (webhook_create_record queue request slack_ts now).1) :
    x.status = "pending" ∨ ∃ r ∈ queue, x.status = r.status := by
  unfold webhook_create_record at hx
  cases hsave : save_approval_request queue (webhook_fresh request) now with
  | error e =>
    rw [hsave] at hx
    exact Or.inr ⟨x, hx, rfl⟩
  | ok q1 =>
    rw [hsave] at hx
    simp only at hx
    rcases status_mem_update _ _ _ _ _ _ hx with h | ⟨r, hr, heq⟩
    · exact Or.inl h
    · have hq1 := save_ok_eq _ _ _ _ hsave
      subst hq1
      rcases List.mem_append.mp hr with hr' | hr'
      · exact Or.inr ⟨r, hr', heq⟩
      · left
        have hr2 : r = { webhook_fresh request with created_at := some now } := by
          simpa using hr'
        rw [heq, hr2]
        rfl

/-- Statuses present after `handle_approve`: `"approved"` or one already in the
queue (the CRM failure branches leave the queue untouched). -/
theorem status_mem_handle_approve (crm : CrmBehavior)
    (queue : List ApprovalRequest) (req : ApprovalRequest) (nowStr : String)
    (x : ApprovalRequest) (hx : x ∈ (handle_approve crm queue req nowStr).1) :
    x.status = "approved" ∨ ∃ r ∈ queue, x.status = r.status := by
  unfold handle_approve at hx
  cases hc : crm.createResult with
  | error e =>
    rw [hc] at hx
    exact Or.inr ⟨x, hx, rfl⟩
  | ok newId =>
    rw [hc] at hx
    cases ht : strTruthy newId
    · simp only [ht, Bool.false_eq_true, if_false] at hx
      exact status_mem_update _ _ _ _ _ _ hx
    · simp only [ht, if_true] at hx
      cases he : crm.enrollResult with
      | error e =>
        rw [he] at hx
        exact Or.inr ⟨x, hx, rfl⟩
      | ok u =>
        rw [he] at hx
        exact status_mem_update _ _ _ _ _ _ hx

/-- Statuses present after one interaction-endpoint call: `"approved"`,
`"skipped"`, or one already in the queue. -/
theorem status_mem_interaction (hmacHex : String → String → String)
    (secret : String) (now : Int) (crm : CrmBehavior)
    (queue : List ApprovalRequest) (r : SlackRequest)
    (payload : InteractionPayload) (nowStr : String) (x : ApprovalRequest)
    (hx : x ∈ (handle_slack_interactions hmacHex secret now crm queue
        r payload nowStr).1) :
    x.status = "approved" ∨ x.status = "skipped" ∨
      ∃ y ∈ queue, x.status = y.status := by
  unfold handle_slack_interactions at hx
  cases hv : verify_slack_signature hmacHex secret now r with
  | error e =>
    rw [hv] at hx
    exact Or.inr (Or.inr ⟨x, hx, rfl⟩)
  | ok b =>
    rw [hv] at hx
    cases b with
    | false => exact Or.inr (Or.inr ⟨x, hx, rfl⟩)
    | true =>
      simp only at hx
      cases hg : get_approval_request queue (payload.value.getD "") with
      | none =>
        rw [hg] at hx
        exact Or.inr (Or.inr ⟨x, hx, rfl⟩)
      | some req =>
        rw [hg] at hx
        simp only at hx
        by_cases ha1 : payload.action_id = some "approve_lead"
        · rw [if_pos ha1] at hx
          rcases status_mem_handle_approve _ _ _ _ _ hx with h | h
          · exact Or.inl h
          · exact Or.inr (Or.inr h)
        · rw [if_neg ha1] at hx
          by_cases ha2 : payload.action_id = some "skip_lead"
          · rw [if_pos ha2] at hx
            unfold handle_skip at hx
            simp only at hx
            rcases status_mem_update _ _ _ _ _ _ hx with h | h
            · exact Or.inr (Or.inl h)
            · exact Or.inr (Or.inr h)
          · rw [if_neg ha2] at hx
            by_cases ha3 : payload.action_id = some "edit_lead"
            · rw [if_pos ha3] at hx
              exact Or.inr (Or.inr ⟨x, hx, rfl⟩)
            · rw [if_neg ha3] at hx
              by_cases ha4 : payload.action_id = some "regenerate_lead"
              · rw [if_pos ha4] at hx
                exact Or.inr (Or.inr ⟨x, hx, rfl⟩)
              · rw [if_neg ha4] at hx
                exact Or.inr (Or.inr ⟨x, hx, rfl⟩)

/-- One program step preserves the set of written statuses. -/
theorem step_preserves_goodStatus (queue : List ApprovalRequest) (op : Op)
    (hq : ∀ x ∈ queue, goodStatus x.status) :
    ∀ x ∈ Op.step queue op, goodStatus x.status := by
  intro x hx
  cases op with
  | webhook request slack_ts now =>
    rcases status_mem_webhook_create _ _ _ _ _ hx with h | ⟨r, hr, heq⟩
    · exact Or.inl h
    · rw [goodStatus, heq]; exact hq r hr
  | interaction hmacHex secret now crm r payload nowStr =>
    rcases status_mem_interaction _ _ _ _ _ _ _ _ _ hx with h | h | ⟨y, hy, heq⟩
    · exact Or.inr (Or.inl h)
    · exact Or.inr (Or.inr h)
    · rw [goodStatus, heq]; exact hq y hy
  | editEmail rid s b n =>
    unfold Op.step update_approval_email at hx
    obtain ⟨r, hr, hf⟩ := List.mem_map.mp hx
    subst hf
    by_cases hid : r.id = rid <;> simp only [goodStatus, hid, if_true, if_false]
    · exact hq r hr
    · exact hq r hr

/-- Any run of program steps preserves the set of written statuses. -/
theorem runOps_preserves_goodStatus (ops : List Op) :
    ∀ queue : List ApprovalRequest, (∀ x ∈ queue, goodStatus x.status) →
      ∀ x ∈ runOps queue ops, goodStatus x.status := by
  induction ops with
  | nil =>
    intro queue hq x hx
    unfold runOps at hx
    exact hq x hx
  | cons op ops ih =>
    intro queue hq x hx
    unfold runOps at hx
    exact ih _ (step_preserves_goodStatus queue op hq) x hx

/-- A pointwise-identity map leaves a list unchanged. -/
theorem map_eq_self_of_id {α : Type} (l : List α) (f : α → α)
    (h : ∀ a ∈ l, f a = a) : l.map f = l := by
  induction l with
  | nil => rfl
  | cons a t ih =>
    simp only [List.map_cons, h a (by simp)]
    rw [ih (fun x hx => h x (by simp [hx]))]

/-! ## Claim theorems -/

/-- C5: for every domain and non-empty contact list, a cache lookup performed
immediately after `cache_contacts` (same current time, nonnegative expiry
window) returns exactly the stored contact list. -/
theorem C5_cache_roundtrip (cache : List (String × CacheEntry)) (domain : String)
    (contacts : List String) (now expiry : Int)
    (hne : contacts ≠ []) (hexp : 0 ≤ expiry) :
    (get_cached_contacts (cache_contacts cache domain contacts now) domain now expiry).1
      = some contacts := by
  have h0 : ¬ (now - now > expiry) := by omega
  have h1 : ¬ expiry < 0 := by omega
  simp [get_cached_contacts, cache_contacts, cacheLookup, List.find?, h0, h1]

/-- Witness for C5 at a concrete domain, contact list and the default 7-day
expiry window in seconds. -/
theorem C5_cache_roundtrip_witness :
    (get_cached_contacts (cache_contacts [] "acme.com" ["contact0"] 0)
      "acme.com" 0 604800).1 = some ["contact0"] :=
  C5_cache_roundtrip [] "acme.com" ["contact0"] 0 604800 (by decide) (by decide)

/-- C6: a cached entry whose age strictly exceeds the expiry window is reported
absent by `get_cached_contacts`, and the lookup deletes the expired entry, so a
subsequent lookup of the same domain finds nothing. -/
theorem C6_expired_entry_purged (cache : List (String × CacheEntry)) (domain : String)
    (entry : CacheEntry) (now expiry : Int)
    (hfound : cacheLookup cache domain = some entry)
    (hexpired : now - entry.fetched_at > expiry) :
    (get_cached_contacts cache domain now expiry).1 = none ∧
    cacheLookup (get_cached_contacts cache domain now expiry).2 domain = none := by
  constructor
  · simp [get_cached_contacts, hfound, hexpired]
  · have h2 : (get_cached_contacts cache domain now expiry).2
        = cache.filter (fun p => p.1 ≠ domain) := by
      simp [get_cached_contacts, hfound, hexpired]
    rw [h2]
    have hfind : (cache.filter (fun p => p.1 ≠ domain)).find?
        (fun p => p.1 = domain) = none := by
      rw [List.find?_eq_none]
      intro x hx
      have hmem := List.mem_filter.mp hx
      simpa using hmem.2
    simp [cacheLookup, hfind]

/-- Witness for C6: an entry fetched at time 0, looked up 700000 seconds later
with a 604800-second window. -/
theorem C6_expired_entry_purged_witness :
    (get_cached_contacts [("acme.com", ⟨["contact0"], 0⟩)] "acme.com" 700000 604800).1 = none ∧
    cacheLookup (get_cached_contacts [("acme.com", ⟨["contact0"], 0⟩)]
      "acme.com" 700000 604800).2 "acme.com" = none :=
  C6_expired_entry_purged [("acme.com", ⟨["contact0"], 0⟩)] "acme.com"
    ⟨["contact0"], 0⟩ 700000 604800 (by decide) (by decide)

/-- C7: an interaction event whose parsed timestamp is 301 or more seconds away
from the current time is rejected by `verify_slack_signature` even when it
carries exactly the signature `"v0=" ++ HMAC(secret, "v0:{timestamp}:{body}")`
that would otherwise match. -/
theorem C7_stale_timestamp_rejected (hmacHex : String → String → String)
    (secret : String) (now ts : Int) (tsStr body : String)
    (hts : pyInt? tsStr = some ts) (hstale : 301 ≤ (now - ts).natAbs) :
    verify_slack_signature hmacHex secret now
      ⟨some tsStr, some ("v0=" ++ hmacHex secret ("v0:" ++ tsStr ++ ":" ++ body)), body⟩
      = .ok false := by
  have h : (now - ts).natAbs > 60 * 5 := by omega
  simp [verify_slack_signature, hts, h]

/-- Witness for C7: timestamp string "0" checked at current time 301 with a
matching signature. -/
theorem C7_stale_timestamp_rejected_witness :
    verify_slack_signature hmac0 "sec" 301
      ⟨some "0", some ("v0=" ++ hmac0 "sec" ("v0:" ++ "0" ++ ":" ++ "payload=x")), "payload=x"⟩
      = .ok false :=
  C7_stale_timestamp_rejected hmac0 "sec" 301 0 "0" "payload=x" (by decide) (by decide)

/-- C9: when the X-Slack-Request-Timestamp header is absent (so
`headers.get` yields `""`) or is not a decimal integer string, the integer
conversion in `verify_slack_signature` raises ValueError instead of returning a
rejection, so the interactions endpoint propagates a 500 and never produces the
401 invalid-signature response for such a request. -/
theorem C9_unparseable_timestamp_raises (hmacHex : String → String → String)
    (secret : String) (now : Int) (crm : CrmBehavior) (queue : List ApprovalRequest)
    (r : SlackRequest) (payload : InteractionPayload) (nowStr : String)
    (hts : pyInt? (r.timestampHeader.getD "") = none) :
    verify_slack_signature hmacHex secret now r = .error .valueError ∧
    handle_slack_interactions hmacHex secret now crm queue r payload nowStr
      = (queue, {}, .serverError) ∧
    (handle_slack_interactions hmacHex secret now crm queue r payload nowStr).2.2
      ≠ .unauthorized := by
  have hv : verify_slack_signature hmacHex secret now r = .error .valueError := by
    simp [verify_slack_signature, hts]
  refine ⟨hv, ?_, ?_⟩ <;> simp [handle_slack_interactions, hv]

/-- Witness for C9: a request with no timestamp header at all. -/
theorem C9_unparseable_timestamp_raises_witness :
    verify_slack_signature hmac0 "sec" 0 ⟨none, none, ""⟩ = .error .valueError ∧
    handle_slack_interactions hmac0 "sec" 0 crmOk [] ⟨none, none, ""⟩ ⟨none, none⟩ "t1"
      = ([], {}, .serverError) ∧
    (handle_slack_interactions hmac0 "sec" 0 crmOk [] ⟨none, none, ""⟩ ⟨none, none⟩ "t1").2.2
      ≠ .unauthorized :=
  C9_unparseable_timestamp_raises hmac0 "sec" 0 crmOk [] ⟨none, none, ""⟩
    ⟨none, none⟩ "t1" (by decide)

/-- C1 counterexample: a skip interaction on a record already in the terminal
status "approved" does change the record's status — handle_skip has no
terminal-state guard and rewrites the status to "skipped". -/
theorem C1_counterexample :
    statusOf [rowApproved] "r1" = some "approved" ∧
    statusOf (handle_slack_interactions hmac0 "sec" 0 crmOk [rowApproved]
      reqVerified payloadSkip "t1").1 "r1" = some "skipped" ∧
    ("skipped" : String) ≠ "approved" := by
  refine ⟨rfl, by decide, by decide⟩

/-- C1 (amended): a skip interaction on a terminal record makes no CRM Commit
Client call and returns success, but it does not leave the status unchanged in
general: handle_skip unconditionally writes "skipped", so a record already
"skipped" keeps its status while an "approved" or "rejected" record is
overwritten to "skipped". -/
theorem C1_amended_skip_no_crm_but_writes (hmacHex : String → String → String)
    (secret : String) (now : Int) (crm : CrmBehavior)
    (queue : List ApprovalRequest) (r : SlackRequest)
    (payload : InteractionPayload) (nowStr : String) (req : ApprovalRequest)
    (hverify : verify_slack_signature hmacHex secret now r = .ok true)
    (haction : payload.action_id = some "skip_lead")
    (hfound : get_approval_request queue (payload.value.getD "") = some req)
    (hterm : req.status = "approved" ∨ req.status = "skipped" ∨
      req.status = "rejected") :
    (handle_slack_interactions hmacHex secret now crm queue r payload
      nowStr).2.1.crmCreates = 0 ∧
    (handle_slack_interactions hmacHex secret now crm queue r payload
      nowStr).2.1.crmEnrolls = 0 ∧
    (handle_slack_interactions hmacHex secret now crm queue r payload
      nowStr).2.2 = .ok200 "skipped" ∧
    statusOf (handle_slack_interactions hmacHex secret now crm queue r payload
      nowStr).1 (payload.value.getD "") = some "skipped" := by
  have hid : req.id = payload.value.getD "" :=
    get_approval_request_id _ _ _ hfound
  have hsome : (get_approval_request queue (payload.value.getD "")).isSome := by
    rw [hfound]; rfl
  have hne : payload.action_id ≠ some "approve_lead" := by
    rw [haction]; simp
  simp only [handle_slack_interactions, hverify, hfound, hne, haction,
    if_false, if_true, reduceCtorEq, reduceIte, handle_skip]
  refine ⟨rfl, rfl, rfl, ?_⟩
  rw [hid]
  exact statusOf_update_self queue (payload.value.getD "") "skipped" none
    nowStr hsome

/-- Witness for the amended C1 at a concrete approved (terminal) record. -/
theorem C1_amended_skip_no_crm_but_writes_witness :
    (handle_slack_interactions hmac0 "sec" 0 crmOk [rowApproved]
      reqVerified payloadSkip "t1").2.1.crmCreates = 0 ∧
    (handle_slack_interactions hmac0 "sec" 0 crmOk [rowApproved]
      reqVerified payloadSkip "t1").2.1.crmEnrolls = 0 ∧
    (handle_slack_interactions hmac0 "sec" 0 crmOk [rowApproved]
      reqVerified payloadSkip "t1").2.2 = .ok200 "skipped" ∧
    statusOf (handle_slack_interactions hmac0 "sec" 0 crmOk [rowApproved]
      reqVerified payloadSkip "t1").1 ((payloadSkip : InteractionPayload).value.getD "")
      = some "skipped" :=
  C1_amended_skip_no_crm_but_writes hmac0 "sec" 0 crmOk [rowApproved]
    reqVerified payloadSkip "t1" rowApproved rfl rfl rfl (Or.inl rfl)

/-- C2 counterexample: the same approve interaction delivered twice for the
same pending record (the sequential schedule of a duplicate concurrent
delivery) executes the CRM contact-creation commit twice, not at most once. -/
theorem C2_counterexample :
    (handle_slack_interactions hmac0 "sec" 0 crmOk [rowPending] reqVerified
        payloadApprove "t1").2.1.crmCreates +
      (handle_slack_interactions hmac0 "sec" 0 crmOk
        (handle_slack_interactions hmac0 "sec" 0 crmOk [rowPending] reqVerified
          payloadApprove "t1").1
        reqVerified payloadApprove "t2").2.1.crmCreates = 2 ∧
    statusOf (handle_slack_interactions hmac0 "sec" 0 crmOk
        (handle_slack_interactions hmac0 "sec" 0 crmOk [rowPending] reqVerified
          payloadApprove "t1").1
        reqVerified payloadApprove "t2").1 "r1" = some "approved" := by
  refine ⟨by decide, by decide⟩

/-- C2 (amended): the record does end up approved, but the commit is not
deduplicated: there is no terminal-state or atomic read-and-transition guard,
so every verified approve delivery whose target id exists performs one CRM
contact-creation call regardless of the record's current status — n deliveries
of the same interaction perform n commits. -/
theorem C2_amended_every_approve_delivery_commits
    (hmacHex : String → String → String) (secret : String) (now : Int)
    (crm : CrmBehavior) (queue : List ApprovalRequest) (r : SlackRequest)
    (payload : InteractionPayload) (nowStr : String) (req : ApprovalRequest)
    (hverify : verify_slack_signature hmacHex secret now r = .ok true)
    (haction : payload.action_id = some "approve_lead")
    (hfound : get_approval_request queue (payload.value.getD "") = some req) :
    (handle_slack_interactions hmacHex secret now crm queue r payload
      nowStr).2.1.crmCreates = 1 := by
  simp only [handle_slack_interactions, hverify, hfound, haction, if_true,
    reduceIte]
  obtain ⟨cres, eres⟩ := crm
  cases cres with
  | error e => rfl
  | ok newId =>
    cases ht : strTruthy newId
    · simp [handle_approve, ht]
    · cases eres <;> simp [handle_approve, ht]

/-- Witness for the amended C2: one approve delivery on an already-approved
record still performs a CRM commit. -/
theorem C2_amended_every_approve_delivery_commits_witness :
    (handle_slack_interactions hmac0 "sec" 0 crmOk [rowApproved] reqVerified
      payloadApprove "t1").2.1.crmCreates = 1 :=
  C2_amended_every_approve_delivery_commits hmac0 "sec" 0 crmOk [rowApproved]
    reqVerified payloadApprove "t1" rowApproved rfl rfl rfl

/-- C3 counterexample: updating the status of an id that is not in the store
returns successfully with the store unchanged — no NotFound failure occurs. -/
theorem C3_counterexample :
    get_approval_request [rowApproved] "missing" = none ∧
    update_approval_status [rowApproved] "missing" "approved" none "t1"
      = [rowApproved] := by
  refine ⟨rfl, by decide⟩

/-- C3 (amended): `update_approval_status` on a request id that does not exist
is a silent no-op: the bare SQL UPDATE matches zero rows, succeeds, and leaves
every stored record unchanged; no NotFound error is raised. -/
theorem C3_amended_update_missing_id_is_noop (queue : List ApprovalRequest)
    (request_id status : String) (slack_ts : Option String) (now : String)
    (habsent : get_approval_request queue request_id = none) :
    update_approval_status queue request_id status slack_ts now = queue := by
  have h : ∀ x ∈ queue, ¬(x.id = request_id) := by
    intro x hx
    unfold get_approval_request at habsent
    have := List.find?_eq_none.mp habsent x hx
    simpa using this
  unfold update_approval_status
  apply map_eq_self_of_id
  intro a ha
  rw [if_neg (h a ha)]

/-- Witness for the amended C3 at a concrete store and missing id. -/
theorem C3_amended_update_missing_id_is_noop_witness :
    update_approval_status [rowApproved] "missing" "approved" none "t1"
      = [rowApproved] :=
  C3_amended_update_missing_id_is_noop [rowApproved] "missing" "approved"
    none "t1" (by decide)

/-- C4 counterexample: the CRM contact creation succeeds (one create call, a
contact id returned) but the sequence-enrollment call raises, and the record
does NOT transition to approved: the queue is unchanged, the record stays
pending, and the handler returns a 500. -/
theorem C4_counterexample :
    (handle_approve crmEnrollFail [rowPending] rowPending "t1").2.1.crmCreates
      = 1 ∧
    (handle_approve crmEnrollFail [rowPending] rowPending "t1").1
      = [rowPending] ∧
    statusOf (handle_approve crmEnrollFail [rowPending] rowPending "t1").1 "r1"
      = some "pending" ∧
    (handle_approve crmEnrollFail [rowPending] rowPending "t1").2.2
      = .serverError := by
  refine ⟨rfl, by decide, by decide, rfl⟩

/-- C4 (amended): when the CRM contact creation succeeds, the record becomes
approved only if enrollment is skipped (no truthy contact id in the response)
or the enrollment call succeeds; when enrollment raises, handle_approve aborts
before the status update — the queue is unchanged (the record keeps its prior
status) and a 500 is returned. -/
theorem C4_amended_enrollment_failure_blocks_approval (crm : CrmBehavior)
    (queue : List ApprovalRequest) (req : ApprovalRequest) (nowStr : String)
    (newId : Option String)
    (hcreate : crm.createResult = .ok newId)
    (hfound : (get_approval_request queue req.id).isSome) :
    ((crm.enrollResult = .ok () ∨ strTruthy newId = false) →
      statusOf (handle_approve crm queue req nowStr).1 req.id
          = some "approved" ∧
      (handle_approve crm queue req nowStr).2.2 = .ok200 "approved") ∧
    (∀ e : PyError, crm.enrollResult = .error e → strTruthy newId = true →
      (handle_approve crm queue req nowStr).1 = queue ∧
      (handle_approve crm queue req nowStr).2.2 = .serverError) := by
  constructor
  · rintro (henroll | hfalse)
    · cases ht : strTruthy newId
      · constructor
        · simp only [handle_approve, hcreate, ht, Bool.false_eq_true, if_false]
          exact statusOf_update_self queue req.id "approved" none nowStr hfound
        · simp [handle_approve, hcreate, ht]
      · constructor
        · simp only [handle_approve, hcreate, ht, if_true, henroll]
          exact statusOf_update_self queue req.id "approved" none nowStr hfound
        · simp [handle_approve, hcreate, ht, henroll]
    · constructor
      · simp only [handle_approve, hcreate, hfalse, Bool.false_eq_true,
          if_false]
        exact statusOf_update_self queue req.id "approved" none nowStr hfound
      · simp [handle_approve, hcreate, hfalse]
  · intro e he htruthy
    constructor <;> simp [handle_approve, hcreate, htruthy, he]

/-- Witness for the amended C4: both CRM calls succeed, so the concrete pending
record is approved. -/
theorem C4_amended_enrollment_failure_blocks_approval_witness :
    statusOf (handle_approve crmOk [rowPending] rowPending "t1").1
        rowPending.id = some "approved" ∧
    (handle_approve crmOk [rowPending] rowPending "t1").2.2
      = .ok200 "approved" :=
  (C4_amended_enrollment_failure_blocks_approval crmOk [rowPending] rowPending
    "t1" (some "cid") rfl (by decide)).1 (Or.inl rfl)

/-- The parsing loop leaves its initial state untouched when no line carries a
SUBJECT: or BODY: marker. -/
theorem foldl_parseStep_no_marker (lines : List (List Char))
    (h : ∀ l ∈ lines, listStartsWith l "SUBJECT:".toList = false ∧
        listStartsWith l "BODY:".toList = false) :
    lines.foldl parseStep ([], false, []) = ([], false, []) := by
  induction lines with
  | nil => rfl
  | cons l ls ih =>
    have hl := h l (by simp)
    simp only [String.toList] at hl
    have hstep : parseStep ([], false, []) l = ([], false, []) := by
      simp [parseStep, hl.1, hl.2]
    rw [List.foldl_cons, hstep]
    exact ih (fun x hx => h x (by simp [hx]))

/-- C8: on a Draft Generator response in which no line of the stripped output
starts with "SUBJECT:" and none starts with "BODY:", the parser does not fail:
it returns the first output line truncated to 50 characters as the subject and
the raw response string as the body. -/
theorem C8_parser_fallback (response : String)
    (h : ∀ l ∈ splitChar '\n' (pyStripList response.toList),
        listStartsWith l "SUBJECT:".toList = false ∧
        listStartsWith l "BODY:".toList = false) :
    parse_email_response response
      = (String.mk (((splitChar '\n' (pyStripList response.toList)).headD
          []).take 50), response) := by
  simp only [parse_email_response]
  rw [foldl_parseStep_no_marker _ h]
  have hps : pyStripList [] = [] := rfl
  by_cases hl : splitChar '\n' (pyStripList response.data) = []
  · simp [joinNl, hps, hl]
  · simp [joinNl, hps, hl]

/-- Witness for C8 on a concrete marker-free two-line response. -/
theorem C8_parser_fallback_witness :
    parse_email_response "hello world\nsecond line"
      = ("hello world", "hello world\nsecond line") :=
  C8_parser_fallback "hello world\nsecond line" (by decide)

/-- C10: starting from the empty store, no sequence of service operations
(webhook deliveries, interaction deliveries with arbitrary outcomes of the
external calls, draft re-edits) ever produces a stored record with status
"rejected": every reachable record's status is "pending", "approved" or
"skipped". -/
theorem C10_rejected_unreachable (ops : List Op) (x : ApprovalRequest)
    (hx : x ∈ runOps [] ops) :
    (x.status = "pending" ∨ x.status = "approved" ∨ x.status = "skipped") ∧
    x.status ≠ "rejected" := by
  have h : goodStatus x.status :=
    runOps_preserves_goodStatus ops [] (by simp) x hx
  refine ⟨h, ?_⟩
  rcases h with h | h | h <;> simp [h]

/-- Witness for C10: the record created by one concrete webhook delivery. -/
theorem C10_rejected_unreachable_witness :
    (rowPublished.status = "pending" ∨ rowPublished.status = "approved" ∨
      rowPublished.status = "skipped") ∧
    rowPublished.status ≠ "rejected" :=
  C10_rejected_unreachable [Op.webhook rowPending "ts1" "t0"] rowPublished
    (by decide)

end Prospector
